import Mathlib

/-!
Shallow embedding of the AI-agent Flask service (src/main.py and
src/routes/ai_chat.py) and proofs about its request-normalisation,
prompt-assembly and response-coercion pipeline.

Request bodies are modelled as decoded JSON values; the body passed to a
handler is `Option (List (String × Json))`: `some kvs` is a JSON-object body
with fields `kvs`, `none` is a null body (`request.get_json()` returning
`None`).  Non-object bodies are outside the scope of the properties below.

The single completion-API call of each handler is modelled by a
`CompletionOutcome` parameter: the text of the first choice on success
(paired with the result `json.loads` gives on that text), or the exception
class raised.  Wall-clock reads (`datetime.now()`) are passed in as
pre-formatted strings.
-/

namespace AiAgent

/-- A decoded JSON value, as produced by `request.get_json()` / `json.loads`.
Numbers are modelled as integers; no property below involves fractional
numbers. -/
inductive Json where
  | null
  | bool (b : Bool)
  | num (n : Int)
  | str (s : String)
  | arr (items : List Json)
  | obj (fields : List (String × Json))

/-- Python truthiness (`bool(v)`) of a decoded JSON value: `None`, `False`,
`0`, `""`, `[]` and `{}` are falsy, everything else truthy. -/
def truthy : Json → Bool
  | .null => false
  | .bool b => b
  | .num n => n != 0
  | .str s => !s.isEmpty
  | .arr items => !items.isEmpty
  | .obj fields => !fields.isEmpty

/-- `d.get(key, default)` on a decoded JSON object. -/
def dictGet (d : List (String × Json)) (key : String) (default : Json) : Json :=
  match d.lookup key with
  | some v => v
  | none => default

/-- Field lookup on a JSON value (used to state which keys a response body
carries); `none` when the value is not an object or lacks the key. -/
def jlookup : Json → String → Option Json
  | .obj fields, key => fields.lookup key
  | _, _ => none

/-- Whether a JSON value is an object. -/
def Json.isObj : Json → Bool
  | .obj _ => true
  | _ => false

/-- Truthiness of `openai.api_key` (`os.environ.get('OPENAI_API_KEY')`):
falsy when the variable is unset (`None`) or set to the empty string. -/
def keyConfigured : Option String → Bool
  | none => false
  | some s => !s.isEmpty

/-- Python's `l[-n:]` for `n > 0`: the last `n` elements (all of them when
`l` is shorter than `n`), in their original order. -/
def lastSlice (n : ℕ) (l : List α) : List α :=
  l.drop (l.length - n)

/-- Items of a `history` field about to be sliced and iterated.  The source
slices and iterates `history[-10:]`; a history value that is not a list
raises at slice/iteration time and falls through to the handler's generic
`except` branch before any completion call (a string history, which Python
would slice into characters, is treated the same way; no property below
involves one). -/
def historyItems : Json → Option (List Json)
  | .arr items => some items
  | _ => none

/-- Python `str(v)` of a decoded JSON value, as used by f-string
interpolation when building prompts.  Scalar renderings are exact; compound
values would render via Python `repr`, which no property below depends on. -/
def pyStr : Json → String
  | .null => "None"
  | .bool true => "True"
  | .bool false => "False"
  | .num n => toString n
  | .str s => s
  | .arr _ => "[...]"
  | .obj _ => "\x7b...\x7d"

/-- Outcome of the handler's single `chat.completions.create` /
`ChatCompletion.create` call: on success, the first choice's text together
with `parsed`, the result of `json.loads` applied to that text (`some v`
when the text parses as the JSON value `v`, `none` when `json.loads`
raises); otherwise the exception class raised, carrying `str(e)`. -/
inductive CompletionOutcome where
  | success (text : String) (parsed : Option Json)
  | authError (msg : String)
  | rateLimitError (msg : String)
  | apiError (msg : String)
  | otherError (msg : String)

/-- Result of one handler invocation: HTTP status, JSON response body, how
many completion-API calls were made (0 or 1), and the message list sent to
the completion service (`[]` when no call was made). -/
structure HandlerResult where
  status : ℕ
  body : Json
  calls : ℕ
  sent : List Json

/-- `jsonify({'error': msg})`. -/
def errorBody (msg : String) : Json :=
  .obj [("error", .str msg)]

/-- A role/content message object as built for the completion service. -/
def mkMessage (role : Json) (content : Json) : Json :=
  .obj [("role", role), ("content", content)]

/-! ## src/main.py -/

namespace Main

/-- System-message text of `/api/chat` (src/main.py, lines 44-49). -/
def chatSystemContent : String :=
  "You are an intelligent AI assistant specializing in real estate. You help with property searches, market analysis, investment advice, and general real estate questions. Be helpful, professional, and provide detailed responses."

/-- The f-string prompt of `organize_task` (src/main.py, lines 103-120);
`{{`/`}}` in the source render as literal braces. -/
def organizePrompt (task : String) : String :=
  "\n        Please organize this task into actionable steps: \"" ++ task ++ "\"\n        \n        Provide a response in the following JSON format:\n        \x7b\n            \"title\": \"Task Title\",\n            \"steps\": [\n                \"Step 1: Description\",\n                \"Step 2: Description\",\n                \"Step 3: Description\"\n            ],\n            \"priority\": \"High/Medium/Low\",\n            \"estimated_total_time\": \"X hours\",\n            \"description\": \"Brief overview of the task\"\n        \x7d\n        \n        Focus on real estate and business tasks. Be specific and actionable.\n        "

/-- The f-string prompt of `schedule_meeting` (src/main.py, lines 179-199). -/
def schedulePrompt (details : String) : String :=
  "\n        Please help plan this meeting: \"" ++ details ++ "\"\n        \n        Provide a response in the following JSON format:\n        \x7b\n            \"title\": \"Meeting Title\",\n            \"agenda\": [\n                \"Agenda item 1\",\n                \"Agenda item 2\",\n                \"Agenda item 3\"\n            ],\n            \"duration\": \"X minutes/hours\",\n            \"preparation\": [\n                \"Preparation item 1\",\n                \"Preparation item 2\"\n            ],\n            \"details\": \"Additional meeting details and recommendations\"\n        \x7d\n        \n        Focus on real estate and business meetings. Be professional and thorough.\n        "

/-- `/api/chat` of src/main.py.  Validates body and `message`, checks the
API key, assembles `[system] ++ history[-10:] ++ [user]` (history entries
appended verbatim), performs one completion call and maps its outcome; the
specific `except` clauses map `AuthenticationError → 401`,
`RateLimitError → 429`, `APIError → 500`, anything else → 500. -/
def chat (data : Option (List (String × Json))) (api_key : Option String)
    (outcome : CompletionOutcome) : HandlerResult :=
  match data with
  | none => ⟨400, errorBody "No data provided", 0, []⟩
  | some d =>
    if d.isEmpty then ⟨400, errorBody "No data provided", 0, []⟩
    else
      let message := dictGet d "message" (.str "")
      let history := dictGet d "history" (.arr [])
      if !truthy message then ⟨400, errorBody "No message provided", 0, []⟩
      else if !keyConfigured api_key then
        ⟨500, errorBody "OpenAI API key not configured", 0, []⟩
      else
        match historyItems history with
        | none =>
          -- `history[-10:]` raised (history not a list); the exact `str(e)`
          -- text is not modelled.
          ⟨500, errorBody "Internal server error: history is not a list", 0, []⟩
        | some hist =>
          let messages :=
            mkMessage (.str "system") (.str chatSystemContent)
              :: lastSlice 10 hist
              ++ [mkMessage (.str "user") message]
          match outcome with
          | .success text _ =>
            ⟨200, .obj [("response", .str text), ("status", .str "success")], 1, messages⟩
          | .authError _ => ⟨401, errorBody "Invalid OpenAI API key", 1, messages⟩
          | .rateLimitError _ => ⟨429, errorBody "OpenAI rate limit exceeded", 1, messages⟩
          | .apiError m => ⟨500, errorBody ("OpenAI API error: " ++ m), 1, messages⟩
          | .otherError m => ⟨500, errorBody ("Internal server error: " ++ m), 1, messages⟩

/-- The `json.loads`-or-fallback coercion of `organize_task`
(src/main.py, lines 136-152): the parsed value unchanged on success, the
fixed fallback object (with `description` = the raw text) on
`JSONDecodeError`. -/
def organizeCoerce (ai_response : String) (parsed : Option Json) : Json :=
  match parsed with
  | some v => v
  | none =>
    .obj
      [ ("title", .str "Task Organization")
      , ("steps", .arr
          [ .str "Step 1: Break down the task into smaller components"
          , .str "Step 2: Prioritize each component"
          , .str "Step 3: Create timeline and deadlines"
          , .str "Step 4: Execute and monitor progress" ])
      , ("priority", .str "Medium")
      , ("estimated_total_time", .str "2-4 hours")
      , ("description", .str ai_response) ]

/-- The `json.loads`-or-fallback coercion of `schedule_meeting`
(src/main.py, lines 216-234). -/
def scheduleCoerce (ai_response : String) (parsed : Option Json) : Json :=
  match parsed with
  | some v => v
  | none =>
    .obj
      [ ("title", .str "Meeting Planning")
      , ("agenda", .arr
          [ .str "Welcome and introductions"
          , .str "Review objectives and goals"
          , .str "Discussion of key topics"
          , .str "Action items and next steps" ])
      , ("duration", .str "60 minutes")
      , ("preparation", .arr
          [ .str "Review relevant documents"
          , .str "Prepare questions and talking points" ])
      , ("details", .str ai_response) ]

/-- `/api/organize-task` of src/main.py.  Validates body and `task`, checks
the API key, performs one completion call with a fixed two-message prompt,
coerces the returned text via `organizeCoerce`; its only `except` clause is
the generic one (`Exception → 500`). -/
def organize_task (data : Option (List (String × Json))) (api_key : Option String)
    (outcome : CompletionOutcome) : HandlerResult :=
  match data with
  | none => ⟨400, errorBody "No data provided", 0, []⟩
  | some d =>
    if d.isEmpty then ⟨400, errorBody "No data provided", 0, []⟩
    else
      let task := dictGet d "task" (.str "")
      if !truthy task then ⟨400, errorBody "No task provided", 0, []⟩
      else if !keyConfigured api_key then
        ⟨500, errorBody "OpenAI API key not configured", 0, []⟩
      else
        let messages :=
          [ mkMessage (.str "system")
              (.str "You are a task organization expert. Always respond with valid JSON format.")
          , mkMessage (.str "user") (.str (organizePrompt (pyStr task))) ]
        match outcome with
        | .success text parsed => ⟨200, organizeCoerce text parsed, 1, messages⟩
        | .authError m => ⟨500, errorBody ("Internal server error: " ++ m), 1, messages⟩
        | .rateLimitError m => ⟨500, errorBody ("Internal server error: " ++ m), 1, messages⟩
        | .apiError m => ⟨500, errorBody ("Internal server error: " ++ m), 1, messages⟩
        | .otherError m => ⟨500, errorBody ("Internal server error: " ++ m), 1, messages⟩

/-- `/api/schedule-meeting` of src/main.py; same shape as `organize_task`
with the `details` field and `scheduleCoerce`. -/
def schedule_meeting (data : Option (List (String × Json))) (api_key : Option String)
    (outcome : CompletionOutcome) : HandlerResult :=
  match data with
  | none => ⟨400, errorBody "No data provided", 0, []⟩
  | some d =>
    if d.isEmpty then ⟨400, errorBody "No data provided", 0, []⟩
    else
      let details := dictGet d "details" (.str "")
      if !truthy details then ⟨400, errorBody "No meeting details provided", 0, []⟩
      else if !keyConfigured api_key then
        ⟨500, errorBody "OpenAI API key not configured", 0, []⟩
      else
        let messages :=
          [ mkMessage (.str "system")
              (.str "You are a meeting planning expert. Always respond with valid JSON format.")
          , mkMessage (.str "user") (.str (schedulePrompt (pyStr details))) ]
        match outcome with
        | .success text parsed => ⟨200, scheduleCoerce text parsed, 1, messages⟩
        | .authError m => ⟨500, errorBody ("Internal server error: " ++ m), 1, messages⟩
        | .rateLimitError m => ⟨500, errorBody ("Internal server error: " ++ m), 1, messages⟩
        | .apiError m => ⟨500, errorBody ("Internal server error: " ++ m), 1, messages⟩
        | .otherError m => ⟨500, errorBody ("Internal server error: " ++ m), 1, messages⟩

/-- `/health` of src/main.py. -/
def health_check (api_key : Option String) : Json :=
  .obj [("status", .str "healthy"), ("openai_configured", .bool (keyConfigured api_key))]

end Main

/-! ## src/routes/ai_chat.py -/

namespace Routes

/-- `SYSTEM_PROMPT.format(current_time=...)` of src/routes/ai_chat.py
(lines 13-37): the module-level template with the current time
(`datetime.now().strftime("%Y-%m-%d %H:%M:%S")`) substituted. -/
def SYSTEM_PROMPT (current_time : String) : String :=
  "You are an intelligent AI assistant specialized in real estate and work organization. Your capabilities include:\n\n1. REAL ESTATE EXPERTISE:\n- Help clients find properties based on their preferences\n- Provide market insights and property recommendations\n- Schedule property viewings and meetings with agents\n- Answer questions about buying, selling, and renting\n\n2. WORK ORGANIZATION:\n- Create and manage task lists\n- Schedule meetings and appointments\n- Set reminders and deadlines\n- Organize projects and workflows\n- Provide productivity tips and strategies\n\n3. GENERAL ASSISTANCE:\n- Answer questions intelligently\n- Provide helpful information and advice\n- Maintain context throughout conversations\n- Be professional, friendly, and efficient\n\nAlways be helpful, accurate, and maintain a professional tone. When organizing work, be specific about dates, times, and actionable steps. For real estate inquiries, ask relevant questions to better understand client needs.\n\nCurrent date and time: " ++ current_time ++ "\n"

/-- The per-entry history normalisation of the routes `chat` handler
(lines 59-62): `{"role": msg.get('role', 'user'), "content":
msg.get('content', '')}`.  A history entry that is not an object makes
`msg.get` raise `AttributeError` (→ `none`), which the handler's generic
`except` turns into a 500 before any completion call. -/
def historyTurn : Json → Option Json
  | .obj fields =>
    some (mkMessage (dictGet fields "role" (.str "user"))
                    (dictGet fields "content" (.str "")))
  | _ => none

/-- The history loop of the routes `chat` handler (lines 58-62): normalise
each entry of `history[-10:]` in order via `historyTurn`; `none` when some
entry raises (non-object entry), in which case the handler returns 500
before any completion call. -/
def mapTurns : List Json → Option (List Json)
  | [] => some []
  | t :: ts =>
    match historyTurn t, mapTurns ts with
    | some u, some us => some (u :: us)
    | _, _ => none

/-- `/api/chat` of src/routes/ai_chat.py.  No body-null check (a null body
makes `data.get` raise, caught by the generic `except` → 500) and no API-key
check: `api_key` records the credential loaded into the library global,
which this handler never reads, so the completion call is attempted
regardless of it.  On success the body is `{response, timestamp}` (no
`status` field); every exception maps to 500 `'Failed to process
message'`. -/
def chat (data : Option (List (String × Json))) (api_key : Option String)
    (now timestamp : String) (outcome : CompletionOutcome) : HandlerResult :=
  match data with
  | none => ⟨500, errorBody "Failed to process message", 0, []⟩
  | some d =>
    let user_message := dictGet d "message" (.str "")
    let conversation_history := dictGet d "history" (.arr [])
    if !truthy user_message then ⟨400, errorBody "Message is required", 0, []⟩
    else
      match historyItems conversation_history with
      | none => ⟨500, errorBody "Failed to process message", 0, []⟩
      | some hist =>
        match mapTurns (lastSlice 10 hist) with
        | none => ⟨500, errorBody "Failed to process message", 0, []⟩
        | some turns =>
          let messages :=
            mkMessage (.str "system") (.str (SYSTEM_PROMPT now))
              :: turns
              ++ [mkMessage (.str "user") user_message]
          match outcome with
          | .success text _ =>
            ⟨200, .obj [("response", .str text), ("timestamp", .str timestamp)], 1, messages⟩
          | _ => ⟨500, errorBody "Failed to process message", 1, messages⟩

/-- The `json.loads`-or-fallback coercion of the routes `organize_task`
(lines 137-144); the bare `except:` falls back to a three-field object
carrying the raw text and a fresh timestamp — no `steps`, `priority` or
`estimated_total_time`. -/
def organizeCoerce (ai_response : String) (parsed : Option Json)
    (timestamp : String) : Json :=
  match parsed with
  | some v => v
  | none =>
    .obj
      [ ("title", .str "Task Organization")
      , ("description", .str ai_response)
      , ("timestamp", .str timestamp) ]

/-- `/api/organize-task` of src/routes/ai_chat.py.  After validation the
handler builds its system message with
`"...with {step, time_estimate, notes}...".format(current_date=...)`
(lines 102-119); `str.format` treats `{step, time_estimate, notes}` as a
replacement field and raises `KeyError 'step, time_estimate, notes'`, so
every request with a truthy `task` hits the generic `except` — 500
`'Failed to organize task'` with no completion call — and the coercion
`Routes.organizeCoerce` is dead code.  `api_key`, `now` and `outcome` are
recorded for uniformity but cannot influence the result. -/
def organize_task (data : Option (List (String × Json))) (api_key : Option String)
    (now timestamp : String) (outcome : CompletionOutcome) : HandlerResult :=
  match data with
  | none => ⟨500, errorBody "Failed to organize task", 0, []⟩
  | some d =>
    let task_description := dictGet d "task" (.str "")
    if !truthy task_description then
      ⟨400, errorBody "Task description is required", 0, []⟩
    else ⟨500, errorBody "Failed to organize task", 0, []⟩

/-- The `json.loads`-or-fallback coercion of the routes `schedule_meeting`
(lines 191-198). -/
def scheduleCoerce (ai_response : String) (parsed : Option Json)
    (timestamp : String) : Json :=
  match parsed with
  | some v => v
  | none =>
    .obj
      [ ("title", .str "Meeting Organization")
      , ("details", .str ai_response)
      , ("timestamp", .str timestamp) ]

/-- The system-message text of the routes `schedule_meeting` (lines
165-174), with the current time substituted by `str.format` (its only
replacement field is `{current_time}`, so this format succeeds). -/
def scheduleSystemContent (current_time : String) : String :=
  "You are a scheduling assistant. When given meeting details, help organize the meeting by providing:\n1. Suggested meeting agenda\n2. Recommended duration\n3. Preparation checklist\n4. Follow-up actions\n5. Meeting best practices\n\nFormat as JSON with fields: title, agenda, duration, preparation, follow_up, tips\nCurrent date and time: " ++ current_time ++ "\n"

/-- `/api/schedule-meeting` of src/routes/ai_chat.py.  Validates `details`,
performs one completion call (no API-key check), coerces via
`Routes.scheduleCoerce`; every exception maps to 500
`'Failed to organize meeting'`. -/
def schedule_meeting (data : Option (List (String × Json))) (api_key : Option String)
    (now timestamp : String) (outcome : CompletionOutcome) : HandlerResult :=
  match data with
  | none => ⟨500, errorBody "Failed to organize meeting", 0, []⟩
  | some d =>
    let meeting_details := dictGet d "details" (.str "")
    if !truthy meeting_details then
      ⟨400, errorBody "Meeting details are required", 0, []⟩
    else
      let messages :=
        [ mkMessage (.str "system") (.str (scheduleSystemContent now))
        , mkMessage (.str "user")
            (.str ("Help me organize this meeting: " ++ pyStr meeting_details)) ]
      match outcome with
      | .success text parsed => ⟨200, scheduleCoerce text parsed timestamp, 1, messages⟩
      | _ => ⟨500, errorBody "Failed to organize meeting", 1, messages⟩

end Routes

/-! ## Concrete fixtures used by the witnesses -/

/-- A canonical history entry: `{"role": "user", "content": "<i>"}`. -/
def sampleTurn (i : ℕ) : Json := mkMessage (.str "user") (.str (toString i))

/-- A twelve-entry conversation history. -/
def histTwelve : List Json := (List.range 12).map sampleTurn

/-- A chat body with a message and the twelve-entry history. -/
def dChatHist : List (String × Json) :=
  [("message", .str "Hello"), ("history", .arr histTwelve)]

/-- A body carrying all three required fields (and no history). -/
def dAllFields : List (String × Json) :=
  [("message", .str "Hello"), ("task", .str "List a 3-bedroom house"),
   ("details", .str "Team sync tomorrow")]

/-- A history whose entries miss `role` resp. `content`. -/
def histDefaults : List Json :=
  [.obj [("content", .str "earlier")], .obj [("role", .str "assistant")]]

/-- A chat body with `histDefaults` as history. -/
def dChatDefaults : List (String × Json) :=
  [("message", .str "hi"), ("history", .arr histDefaults)]

/-- What the routes normalisation makes of `histDefaults`. -/
def turnsDefaults : List Json :=
  [mkMessage (.str "user") (.str "earlier"), mkMessage (.str "assistant") (.str "")]

/-! ## Helper lemmas -/

theorem truthy_str_empty : truthy (.str "") = false := by decide

theorem lastSlice_length {α : Type _} (n : ℕ) (l : List α) (h : n ≤ l.length) :
    (lastSlice n l).length = n := by
  simp only [lastSlice, List.length_drop]
  omega

theorem lastSlice_suffix {α : Type _} (n : ℕ) (l : List α) : lastSlice n l <:+ l :=
  List.drop_suffix _ _

theorem mapTurns_length :
    ∀ (l l' : List Json), Routes.mapTurns l = some l' → l'.length = l.length := by
  intro l
  induction l with
  | nil =>
    intro l' h
    simp only [Routes.mapTurns, Option.some.injEq] at h
    subst h; rfl
  | cons t ts ih =>
    intro l' h
    simp only [Routes.mapTurns] at h
    cases hu : Routes.historyTurn t with
    | none => rw [hu] at h; simp at h
    | some u =>
      rw [hu] at h
      cases hus : Routes.mapTurns ts with
      | none => rw [hus] at h; simp at h
      | some us =>
        rw [hus] at h
        simp only [Option.some.injEq] at h
        subst h
        simp [ih us hus]

/-- Running the main chat handler on a validated request: whatever the
completion outcome, one call is made and the message list sent is
`[system] ++ history[-10:] ++ [user]`, history entries verbatim. -/
theorem mainChat_run (d : List (String × Json)) (key : Option String)
    (hist : List Json) (out : CompletionOutcome)
    (hm : truthy (dictGet d "message" (.str "")) = true)
    (hkey : keyConfigured key = true)
    (hh : dictGet d "history" (.arr []) = .arr hist) :
    (Main.chat (some d) key out).sent
        = mkMessage (.str "system") (.str Main.chatSystemContent)
            :: lastSlice 10 hist
            ++ [mkMessage (.str "user") (dictGet d "message" (.str ""))]
      ∧ (Main.chat (some d) key out).calls = 1 := by
  cases d with
  | nil => exact absurd hm (by decide)
  | cons p t =>
    cases out <;> simp [Main.chat, hm, hkey, hh, historyItems]

/-- Running the routes chat handler on a validated request with an
all-object history: one call, message list `[system] ++ normalised
history[-10:] ++ [user]`. -/
theorem routesChat_run (d : List (String × Json)) (key : Option String)
    (now ts : String) (hist turns : List Json) (out : CompletionOutcome)
    (hm : truthy (dictGet d "message" (.str "")) = true)
    (hh : dictGet d "history" (.arr []) = .arr hist)
    (hturns : Routes.mapTurns (lastSlice 10 hist) = some turns) :
    (Routes.chat (some d) key now ts out).sent
        = mkMessage (.str "system") (.str (Routes.SYSTEM_PROMPT now))
            :: turns
            ++ [mkMessage (.str "user") (dictGet d "message" (.str ""))]
      ∧ (Routes.chat (some d) key now ts out).calls = 1 := by
  cases out <;> simp [Routes.chat, hm, hh, hturns, historyItems]

/-- Successful main chat call: full response. -/
theorem mainChat_success (d : List (String × Json)) (key : Option String)
    (hist : List Json) (text : String) (pj : Option Json)
    (hm : truthy (dictGet d "message" (.str "")) = true)
    (hkey : keyConfigured key = true)
    (hh : dictGet d "history" (.arr []) = .arr hist) :
    Main.chat (some d) key (.success text pj)
      = ⟨200, .obj [("response", .str text), ("status", .str "success")], 1,
          mkMessage (.str "system") (.str Main.chatSystemContent)
            :: lastSlice 10 hist
            ++ [mkMessage (.str "user") (dictGet d "message" (.str ""))]⟩ := by
  cases d with
  | nil => exact absurd hm (by decide)
  | cons p t => simp [Main.chat, hm, hkey, hh, historyItems]

/-- Upstream authentication failure in the main chat handler: 401. -/
theorem mainChat_auth (d : List (String × Json)) (key : Option String)
    (hist : List Json) (m : String)
    (hm : truthy (dictGet d "message" (.str "")) = true)
    (hkey : keyConfigured key = true)
    (hh : dictGet d "history" (.arr []) = .arr hist) :
    Main.chat (some d) key (.authError m)
      = ⟨401, errorBody "Invalid OpenAI API key", 1,
          mkMessage (.str "system") (.str Main.chatSystemContent)
            :: lastSlice 10 hist
            ++ [mkMessage (.str "user") (dictGet d "message" (.str ""))]⟩ := by
  cases d with
  | nil => exact absurd hm (by decide)
  | cons p t => simp [Main.chat, hm, hkey, hh, historyItems]

/-- Successful routes chat call: full response (note: no `status` field). -/
theorem routesChat_success (d : List (String × Json)) (key : Option String)
    (now ts : String) (hist turns : List Json) (text : String) (pj : Option Json)
    (hm : truthy (dictGet d "message" (.str "")) = true)
    (hh : dictGet d "history" (.arr []) = .arr hist)
    (hturns : Routes.mapTurns (lastSlice 10 hist) = some turns) :
    Routes.chat (some d) key now ts (.success text pj)
      = ⟨200, .obj [("response", .str text), ("timestamp", .str ts)], 1,
          mkMessage (.str "system") (.str (Routes.SYSTEM_PROMPT now))
            :: turns
            ++ [mkMessage (.str "user") (dictGet d "message" (.str ""))]⟩ := by
  simp [Routes.chat, hm, hh, hturns, historyItems]

/-- Any completion failure in the routes chat handler: generic 500. -/
theorem routesChat_auth (d : List (String × Json)) (key : Option String)
    (now ts : String) (hist turns : List Json) (m : String)
    (hm : truthy (dictGet d "message" (.str "")) = true)
    (hh : dictGet d "history" (.arr []) = .arr hist)
    (hturns : Routes.mapTurns (lastSlice 10 hist) = some turns) :
    Routes.chat (some d) key now ts (.authError m)
      = ⟨500, errorBody "Failed to process message", 1,
          mkMessage (.str "system") (.str (Routes.SYSTEM_PROMPT now))
            :: turns
            ++ [mkMessage (.str "user") (dictGet d "message" (.str ""))]⟩ := by
  simp [Routes.chat, hm, hh, hturns, historyItems]

/-- Successful main organize-task call. -/
theorem mainOrganize_success (d : List (String × Json)) (key : Option String)
    (text : String) (pj : Option Json)
    (ht : truthy (dictGet d "task" (.str "")) = true)
    (hkey : keyConfigured key = true) :
    Main.organize_task (some d) key (.success text pj)
      = ⟨200, Main.organizeCoerce text pj, 1,
          [ mkMessage (.str "system")
              (.str "You are a task organization expert. Always respond with valid JSON format.")
          , mkMessage (.str "user")
              (.str (Main.organizePrompt (pyStr (dictGet d "task" (.str "")))))]⟩ := by
  cases d with
  | nil => exact absurd ht (by decide)
  | cons p t => simp [Main.organize_task, ht, hkey]

/-- Upstream authentication failure in main organize-task: generic 500. -/
theorem mainOrganize_auth (d : List (String × Json)) (key : Option String)
    (m : String)
    (ht : truthy (dictGet d "task" (.str "")) = true)
    (hkey : keyConfigured key = true) :
    (Main.organize_task (some d) key (.authError m)).status = 500
      ∧ (Main.organize_task (some d) key (.authError m)).body
          = errorBody ("Internal server error: " ++ m) := by
  cases d with
  | nil => exact absurd ht (by decide)
  | cons p t => simp [Main.organize_task, ht, hkey]

/-- Successful main schedule-meeting call. -/
theorem mainSchedule_success (d : List (String × Json)) (key : Option String)
    (text : String) (pj : Option Json)
    (hdet : truthy (dictGet d "details" (.str "")) = true)
    (hkey : keyConfigured key = true) :
    Main.schedule_meeting (some d) key (.success text pj)
      = ⟨200, Main.scheduleCoerce text pj, 1,
          [ mkMessage (.str "system")
              (.str "You are a meeting planning expert. Always respond with valid JSON format.")
          , mkMessage (.str "user")
              (.str (Main.schedulePrompt (pyStr (dictGet d "details" (.str "")))))]⟩ := by
  cases d with
  | nil => exact absurd hdet (by decide)
  | cons p t => simp [Main.schedule_meeting, hdet, hkey]

/-- Upstream authentication failure in main schedule-meeting: generic 500. -/
theorem mainSchedule_auth (d : List (String × Json)) (key : Option String)
    (m : String)
    (hdet : truthy (dictGet d "details" (.str "")) = true)
    (hkey : keyConfigured key = true) :
    (Main.schedule_meeting (some d) key (.authError m)).status = 500
      ∧ (Main.schedule_meeting (some d) key (.authError m)).body
          = errorBody ("Internal server error: " ++ m) := by
  cases d with
  | nil => exact absurd hdet (by decide)
  | cons p t => simp [Main.schedule_meeting, hdet, hkey]

/-- Successful routes schedule-meeting call. -/
theorem routesSchedule_success (d : List (String × Json)) (key : Option String)
    (now ts : String) (text : String) (pj : Option Json)
    (hdet : truthy (dictGet d "details" (.str "")) = true) :
    Routes.schedule_meeting (some d) key now ts (.success text pj)
      = ⟨200, Routes.scheduleCoerce text pj ts, 1,
          [ mkMessage (.str "system") (.str (Routes.scheduleSystemContent now))
          , mkMessage (.str "user")
              (.str ("Help me organize this meeting: "
                      ++ pyStr (dictGet d "details" (.str ""))))]⟩ := by
  simp [Routes.schedule_meeting, hdet]

/-- Any completion failure in routes schedule-meeting: generic 500. -/
theorem routesSchedule_auth (d : List (String × Json)) (key : Option String)
    (now ts : String) (m : String)
    (hdet : truthy (dictGet d "details" (.str "")) = true) :
    Routes.schedule_meeting (some d) key now ts (.authError m)
      = ⟨500, errorBody "Failed to organize meeting", 1,
          [ mkMessage (.str "system") (.str (Routes.scheduleSystemContent now))
          , mkMessage (.str "user")
              (.str ("Help me organize this meeting: "
                      ++ pyStr (dictGet d "details" (.str ""))))]⟩ := by
  simp [Routes.schedule_meeting, hdet]

/-- The routes organize-task handler on any validated request: 500 without a
completion call (the `str.format` of its system template raises). -/
theorem routesOrganize_run (d : List (String × Json)) (key : Option String)
    (now ts : String) (out : CompletionOutcome)
    (ht : truthy (dictGet d "task" (.str "")) = true) :
    Routes.organize_task (some d) key now ts out
      = ⟨500, errorBody "Failed to organize task", 0, []⟩ := by
  simp [Routes.organize_task, ht]

/-! ## Claims -/

/-- C1: for every chat request whose history is longer than 10 turns, the
message list forwarded to the completion service is
`[system] ++ (last 10 history turns, original order) ++ [user]` in both
implementations (the routes one after its per-entry role/content
normalisation): exactly 10 history turns, forming a suffix of the history,
are forwarded, regardless of the total history length. -/
theorem chat_forwards_last_ten_history
    (d : List (String × Json)) (key : Option String) (out : CompletionOutcome)
    (now ts : String) (hist turns : List Json)
    (hm : truthy (dictGet d "message" (.str "")) = true)
    (hh : dictGet d "history" (.arr []) = .arr hist)
    (hlen : 10 < hist.length)
    (hkey : keyConfigured key = true)
    (hturns : Routes.mapTurns (lastSlice 10 hist) = some turns) :
    (Main.chat (some d) key out).sent
        = mkMessage (.str "system") (.str Main.chatSystemContent)
            :: lastSlice 10 hist
            ++ [mkMessage (.str "user") (dictGet d "message" (.str ""))]
      ∧ (Routes.chat (some d) key now ts out).sent
        = mkMessage (.str "system") (.str (Routes.SYSTEM_PROMPT now))
            :: turns
            ++ [mkMessage (.str "user") (dictGet d "message" (.str ""))]
      ∧ (lastSlice 10 hist).length = 10
      ∧ turns.length = 10
      ∧ lastSlice 10 hist <:+ hist := by
  refine ⟨(mainChat_run d key hist out hm hkey hh).1,
          (routesChat_run d key now ts hist turns out hm hh hturns).1,
          lastSlice_length 10 hist (by omega), ?_, lastSlice_suffix 10 hist⟩
  rw [mapTurns_length _ _ hturns]
  exact lastSlice_length 10 hist (by omega)

/-- C1 witness: the theorem instantiated on a concrete 12-entry history. -/
theorem chat_forwards_last_ten_history_witness :
    (truthy (dictGet dChatHist "message" (.str "")) = true
      ∧ dictGet dChatHist "history" (.arr []) = .arr histTwelve
      ∧ 10 < histTwelve.length
      ∧ keyConfigured (some "k") = true
      ∧ Routes.mapTurns (lastSlice 10 histTwelve) = some (lastSlice 10 histTwelve))
    ∧ ((Main.chat (some dChatHist) (some "k") (.success "ok" none)).sent
          = mkMessage (.str "system") (.str Main.chatSystemContent)
              :: lastSlice 10 histTwelve
              ++ [mkMessage (.str "user") (dictGet dChatHist "message" (.str ""))]
        ∧ (Routes.chat (some dChatHist) (some "k") "N" "T" (.success "ok" none)).sent
          = mkMessage (.str "system") (.str (Routes.SYSTEM_PROMPT "N"))
              :: lastSlice 10 histTwelve
              ++ [mkMessage (.str "user") (dictGet dChatHist "message" (.str ""))]
        ∧ (lastSlice 10 histTwelve).length = 10
        ∧ (lastSlice 10 histTwelve).length = 10
        ∧ lastSlice 10 histTwelve <:+ histTwelve) :=
  ⟨⟨rfl, rfl, by decide, rfl, rfl⟩,
   chat_forwards_last_ten_history dChatHist (some "k") (.success "ok" none) "N" "T"
     histTwelve (lastSlice 10 histTwelve) rfl rfl (by decide) rfl rfl⟩

/-- C2: a request whose required field is absent or the empty string gets
HTTP 400 and zero completion calls — for all three endpoints, in both
implementations (`dictGet d f (.str "") = .str ""` covers both the absent
key and the present-but-empty string). -/
theorem missing_required_field_rejected
    (d : List (String × Json)) (key : Option String) (out : CompletionOutcome)
    (now ts : String) :
    (dictGet d "message" (.str "") = .str "" →
        (Main.chat (some d) key out).status = 400
      ∧ (Main.chat (some d) key out).calls = 0
      ∧ (Routes.chat (some d) key now ts out).status = 400
      ∧ (Routes.chat (some d) key now ts out).calls = 0)
  ∧ (dictGet d "task" (.str "") = .str "" →
        (Main.organize_task (some d) key out).status = 400
      ∧ (Main.organize_task (some d) key out).calls = 0
      ∧ (Routes.organize_task (some d) key now ts out).status = 400
      ∧ (Routes.organize_task (some d) key now ts out).calls = 0)
  ∧ (dictGet d "details" (.str "") = .str "" →
        (Main.schedule_meeting (some d) key out).status = 400
      ∧ (Main.schedule_meeting (some d) key out).calls = 0
      ∧ (Routes.schedule_meeting (some d) key now ts out).status = 400
      ∧ (Routes.schedule_meeting (some d) key now ts out).calls = 0) := by
  refine ⟨fun h => ?_, fun h => ?_, fun h => ?_⟩ <;>
  · cases d with
    | nil =>
      simp [Main.chat, Routes.chat, Main.organize_task, Routes.organize_task,
        Main.schedule_meeting, Routes.schedule_meeting, dictGet, truthy_str_empty]
    | cons p t =>
      simp [Main.chat, Routes.chat, Main.organize_task, Routes.organize_task,
        Main.schedule_meeting, Routes.schedule_meeting, h, truthy_str_empty]

/-- C2 witness: the empty-object body triggers all three rejections. -/
theorem missing_required_field_rejected_witness :
    (dictGet ([] : List (String × Json)) "message" (.str "") = .str ""
      ∧ dictGet ([] : List (String × Json)) "task" (.str "") = .str ""
      ∧ dictGet ([] : List (String × Json)) "details" (.str "") = .str "")
    ∧ ((Main.chat (some []) (some "k") (.success "x" none)).status = 400
        ∧ (Main.chat (some []) (some "k") (.success "x" none)).calls = 0
        ∧ (Routes.chat (some []) (some "k") "N" "T" (.success "x" none)).status = 400
        ∧ (Routes.chat (some []) (some "k") "N" "T" (.success "x" none)).calls = 0)
    ∧ ((Main.organize_task (some []) (some "k") (.success "x" none)).status = 400
        ∧ (Main.organize_task (some []) (some "k") (.success "x" none)).calls = 0
        ∧ (Routes.organize_task (some []) (some "k") "N" "T" (.success "x" none)).status = 400
        ∧ (Routes.organize_task (some []) (some "k") "N" "T" (.success "x" none)).calls = 0)
    ∧ ((Main.schedule_meeting (some []) (some "k") (.success "x" none)).status = 400
        ∧ (Main.schedule_meeting (some []) (some "k") (.success "x" none)).calls = 0
        ∧ (Routes.schedule_meeting (some []) (some "k") "N" "T" (.success "x" none)).status = 400
        ∧ (Routes.schedule_meeting (some []) (some "k") "N" "T" (.success "x" none)).calls = 0) :=
  ⟨⟨rfl, rfl, rfl⟩,
   (missing_required_field_rejected [] (some "k") (.success "x" none) "N" "T").1 rfl,
   (missing_required_field_rejected [] (some "k") (.success "x" none) "N" "T").2.1 rfl,
   (missing_required_field_rejected [] (some "k") (.success "x" none) "N" "T").2.2 rfl⟩

/-- C3 counterexample: the routes implementation does not return the claimed
fixed fallback for unparseable model text: on a valid request its
organize-task endpoint answers 500 with zero completion calls, and its
fallback coercion (dead code) carries no `steps`, `priority` or
`estimated_total_time` field. -/
theorem organize_fallback_not_universal :
    (Routes.organize_task (some [("task", .str "List a 3-bedroom house")])
        (some "k") "N" "T" (.success "not json" none)).status = 500
    ∧ (Routes.organize_task (some [("task", .str "List a 3-bedroom house")])
        (some "k") "N" "T" (.success "not json" none)).calls = 0
    ∧ jlookup (Routes.organizeCoerce "not json" none "T") "priority" = none
    ∧ jlookup (Routes.organizeCoerce "not json" none "T") "steps" = none
    ∧ jlookup (Routes.organizeCoerce "not json" none "T") "description"
        = some (.str "not json") :=
  ⟨rfl, rfl, rfl, rfl, rfl⟩

/-- C3 (amended): in the main implementation, raw model text that is not
valid JSON makes organize-task answer 200 with the fixed fallback object —
title "Task Organization", the 4 generic ordered steps, priority "Medium",
estimated_total_time "2-4 hours" — whose `description` equals the raw text
byte-for-byte.  The routes implementation differs: its fallback is the
three-field `{title, description, timestamp}` object, and its organize-task
endpoint in fact fails (500, no completion call) before any coercion. -/
theorem main_organize_fallback
    (d : List (String × Json)) (key : Option String) (text : String)
    (now ts : String)
    (ht : truthy (dictGet d "task" (.str "")) = true)
    (hkey : keyConfigured key = true) :
    (Main.organize_task (some d) key (.success text none)).status = 200
    ∧ (Main.organize_task (some d) key (.success text none)).body
        = .obj
            [ ("title", .str "Task Organization")
            , ("steps", .arr
                [ .str "Step 1: Break down the task into smaller components"
                , .str "Step 2: Prioritize each component"
                , .str "Step 3: Create timeline and deadlines"
                , .str "Step 4: Execute and monitor progress" ])
            , ("priority", .str "Medium")
            , ("estimated_total_time", .str "2-4 hours")
            , ("description", .str text) ]
    ∧ Routes.organizeCoerce text none ts
        = .obj [("title", .str "Task Organization"), ("description", .str text),
                ("timestamp", .str ts)]
    ∧ Routes.organize_task (some d) key now ts (.success text none)
        = ⟨500, errorBody "Failed to organize task", 0, []⟩ := by
  have h := mainOrganize_success d key text none ht hkey
  exact ⟨by rw [h], by rw [h]; rfl, rfl, routesOrganize_run d key now ts _ ht⟩

/-- C3 witness: the amended theorem at the spec's end-to-end example. -/
theorem main_organize_fallback_witness :
    (truthy (dictGet dAllFields "task" (.str "")) = true
      ∧ keyConfigured (some "k") = true)
    ∧ ((Main.organize_task (some dAllFields) (some "k") (.success "not json" none)).status = 200
      ∧ (Main.organize_task (some dAllFields) (some "k") (.success "not json" none)).body
          = .obj
              [ ("title", .str "Task Organization")
              , ("steps", .arr
                  [ .str "Step 1: Break down the task into smaller components"
                  , .str "Step 2: Prioritize each component"
                  , .str "Step 3: Create timeline and deadlines"
                  , .str "Step 4: Execute and monitor progress" ])
              , ("priority", .str "Medium")
              , ("estimated_total_time", .str "2-4 hours")
              , ("description", .str "not json") ]
      ∧ Routes.organizeCoerce "not json" none "T"
          = .obj [("title", .str "Task Organization"), ("description", .str "not json"),
                  ("timestamp", .str "T")]
      ∧ Routes.organize_task (some dAllFields) (some "k") "N" "T" (.success "not json" none)
          = ⟨500, errorBody "Failed to organize task", 0, []⟩) :=
  ⟨⟨rfl, rfl⟩, main_organize_fallback dAllFields (some "k") "not json" "N" "T" rfl rfl⟩

/-- C4: raw model text that parses as a JSON value is returned unchanged as
the response body — by all four coercions (no field dropped, renamed or
re-ordered, the parsed value's internal shape not inspected) and by each
handler that reaches a coercion. -/
theorem parsed_json_returned_unchanged
    (d : List (String × Json)) (key : Option String) (text : String) (v : Json)
    (now ts : String)
    (ht : truthy (dictGet d "task" (.str "")) = true)
    (hdet : truthy (dictGet d "details" (.str "")) = true)
    (hkey : keyConfigured key = true) :
    Main.organizeCoerce text (some v) = v
    ∧ Main.scheduleCoerce text (some v) = v
    ∧ Routes.organizeCoerce text (some v) ts = v
    ∧ Routes.scheduleCoerce text (some v) ts = v
    ∧ (Main.organize_task (some d) key (.success text (some v))).status = 200
    ∧ (Main.organize_task (some d) key (.success text (some v))).body = v
    ∧ (Main.schedule_meeting (some d) key (.success text (some v))).status = 200
    ∧ (Main.schedule_meeting (some d) key (.success text (some v))).body = v
    ∧ (Routes.schedule_meeting (some d) key now ts (.success text (some v))).status = 200
    ∧ (Routes.schedule_meeting (some d) key now ts (.success text (some v))).body = v := by
  have h1 := mainOrganize_success d key text (some v) ht hkey
  have h2 := mainSchedule_success d key text (some v) hdet hkey
  have h3 := routesSchedule_success d key now ts text (some v) hdet
  exact ⟨rfl, rfl, rfl, rfl, by rw [h1], by rw [h1]; rfl, by rw [h2], by rw [h2]; rfl,
         by rw [h3], by rw [h3]; rfl⟩

/-- C4 witness: the theorem at a concrete parsed object. -/
theorem parsed_json_returned_unchanged_witness :
    (truthy (dictGet dAllFields "task" (.str "")) = true
      ∧ truthy (dictGet dAllFields "details" (.str "")) = true
      ∧ keyConfigured (some "k") = true)
    ∧ (Main.organizeCoerce "tx" (some (.obj [("a", .num 1)])) = .obj [("a", .num 1)]
      ∧ Main.scheduleCoerce "tx" (some (.obj [("a", .num 1)])) = .obj [("a", .num 1)]
      ∧ Routes.organizeCoerce "tx" (some (.obj [("a", .num 1)])) "T" = .obj [("a", .num 1)]
      ∧ Routes.scheduleCoerce "tx" (some (.obj [("a", .num 1)])) "T" = .obj [("a", .num 1)]
      ∧ (Main.organize_task (some dAllFields) (some "k")
          (.success "tx" (some (.obj [("a", .num 1)])))).status = 200
      ∧ (Main.organize_task (some dAllFields) (some "k")
          (.success "tx" (some (.obj [("a", .num 1)])))).body = .obj [("a", .num 1)]
      ∧ (Main.schedule_meeting (some dAllFields) (some "k")
          (.success "tx" (some (.obj [("a", .num 1)])))).status = 200
      ∧ (Main.schedule_meeting (some dAllFields) (some "k")
          (.success "tx" (some (.obj [("a", .num 1)])))).body = .obj [("a", .num 1)]
      ∧ (Routes.schedule_meeting (some dAllFields) (some "k") "N" "T"
          (.success "tx" (some (.obj [("a", .num 1)])))).status = 200
      ∧ (Routes.schedule_meeting (some dAllFields) (some "k") "N" "T"
          (.success "tx" (some (.obj [("a", .num 1)])))).body = .obj [("a", .num 1)]) :=
  ⟨⟨rfl, rfl, rfl⟩,
   parsed_json_returned_unchanged dAllFields (some "k") "tx" (.obj [("a", .num 1)])
     "N" "T" rfl rfl rfl⟩

/-- C5 counterexample: with the credential absent, the routes chat endpoint
does not stop before the completion call — it attempts the call (one call
counted) and maps the resulting failure to a generic 500 with no explicit
configuration message. -/
theorem missing_key_not_universal :
    (Routes.chat (some [("message", .str "Hello")]) none "N" "T"
        (.authError "No API key provided")).calls = 1
    ∧ (Routes.chat (some [("message", .str "Hello")]) none "N" "T"
        (.authError "No API key provided")).status = 500
    ∧ (Routes.chat (some [("message", .str "Hello")]) none "N" "T"
        (.authError "No API key provided")).body
        = errorBody "Failed to process message" :=
  ⟨rfl, rfl, rfl⟩

/-- C5 (amended): with the credential absent or empty, the three main
endpoints return 500 "OpenAI API key not configured" with zero completion
calls before any network activity; the routes implementation never checks
the credential — its chat and schedule-meeting endpoints attempt the
completion call regardless (one call, generic 500 on the resulting
failure), and its organize-task endpoint fails before the call for an
unrelated reason. -/
theorem missing_key_behaviour
    (d : List (String × Json)) (key : Option String) (out : CompletionOutcome)
    (now ts m : String)
    (hm : truthy (dictGet d "message" (.str "")) = true)
    (ht : truthy (dictGet d "task" (.str "")) = true)
    (hdet : truthy (dictGet d "details" (.str "")) = true)
    (hh : dictGet d "history" (.arr []) = .arr [])
    (hkey : keyConfigured key = false) :
    Main.chat (some d) key out
        = ⟨500, errorBody "OpenAI API key not configured", 0, []⟩
    ∧ Main.organize_task (some d) key out
        = ⟨500, errorBody "OpenAI API key not configured", 0, []⟩
    ∧ Main.schedule_meeting (some d) key out
        = ⟨500, errorBody "OpenAI API key not configured", 0, []⟩
    ∧ (Routes.chat (some d) key now ts (.authError m)).calls = 1
    ∧ (Routes.chat (some d) key now ts (.authError m)).status = 500
    ∧ (Routes.schedule_meeting (some d) key now ts (.authError m)).calls = 1
    ∧ (Routes.schedule_meeting (some d) key now ts (.authError m)).status = 500 := by
  have hc := routesChat_auth d key now ts [] [] m hm hh rfl
  have hs := routesSchedule_auth d key now ts m hdet
  refine ⟨?_, ?_, ?_, by rw [hc], by rw [hc], by rw [hs], by rw [hs]⟩ <;>
  · cases d with
    | nil => exact absurd hm (by decide)
    | cons p t =>
      simp [Main.chat, Main.organize_task, Main.schedule_meeting, hm, ht, hdet, hkey]

/-- C5 witness: the amended theorem at an unset credential. -/
theorem missing_key_behaviour_witness :
    (truthy (dictGet dAllFields "message" (.str "")) = true
      ∧ truthy (dictGet dAllFields "task" (.str "")) = true
      ∧ truthy (dictGet dAllFields "details" (.str "")) = true
      ∧ dictGet dAllFields "history" (.arr []) = .arr []
      ∧ keyConfigured none = false)
    ∧ (Main.chat (some dAllFields) none (.success "x" none)
          = ⟨500, errorBody "OpenAI API key not configured", 0, []⟩
      ∧ Main.organize_task (some dAllFields) none (.success "x" none)
          = ⟨500, errorBody "OpenAI API key not configured", 0, []⟩
      ∧ Main.schedule_meeting (some dAllFields) none (.success "x" none)
          = ⟨500, errorBody "OpenAI API key not configured", 0, []⟩
      ∧ (Routes.chat (some dAllFields) none "N" "T" (.authError "x")).calls = 1
      ∧ (Routes.chat (some dAllFields) none "N" "T" (.authError "x")).status = 500
      ∧ (Routes.schedule_meeting (some dAllFields) none "N" "T" (.authError "x")).calls = 1
      ∧ (Routes.schedule_meeting (some dAllFields) none "N" "T" (.authError "x")).status = 500) :=
  ⟨⟨rfl, rfl, rfl, rfl, rfl⟩,
   missing_key_behaviour dAllFields none (.success "x" none) "N" "T" "x"
     rfl rfl rfl rfl rfl⟩

/-- C6 counterexample: the routes chat success body carries no `status`
field — it is `{response, timestamp}` — refuting the claim for that
implementation. -/
theorem chat_success_status_not_universal :
    (Routes.chat (some [("message", .str "Hello")]) (some "k") "N" "T"
        (.success "Hi there" none)).status = 200
    ∧ jlookup (Routes.chat (some [("message", .str "Hello")]) (some "k") "N" "T"
        (.success "Hi there" none)).body "status" = none
    ∧ jlookup (Routes.chat (some [("message", .str "Hello")]) (some "k") "N" "T"
        (.success "Hi there" none)).body "response" = some (.str "Hi there") :=
  ⟨rfl, rfl, rfl⟩

/-- C6 (amended): on a successful chat request with no history, both
implementations send exactly two messages — the system turn then the user
turn carrying the caller's message — and return 200 with `response` equal
to the completion service's first-choice text; the main implementation's
body is `{response, status: "success"}`, while the routes implementation's
body is `{response, timestamp}` with no `status` field. -/
theorem chat_success_no_history
    (d : List (String × Json)) (key : Option String) (text : String)
    (pj : Option Json) (now ts : String)
    (hm : truthy (dictGet d "message" (.str "")) = true)
    (hh : dictGet d "history" (.arr []) = .arr [])
    (hkey : keyConfigured key = true) :
    Main.chat (some d) key (.success text pj)
        = ⟨200, .obj [("response", .str text), ("status", .str "success")], 1,
            [ mkMessage (.str "system") (.str Main.chatSystemContent)
            , mkMessage (.str "user") (dictGet d "message" (.str ""))]⟩
    ∧ Routes.chat (some d) key now ts (.success text pj)
        = ⟨200, .obj [("response", .str text), ("timestamp", .str ts)], 1,
            [ mkMessage (.str "system") (.str (Routes.SYSTEM_PROMPT now))
            , mkMessage (.str "user") (dictGet d "message" (.str ""))]⟩
    ∧ (Main.chat (some d) key (.success text pj)).sent.length = 2
    ∧ jlookup (Routes.chat (some d) key now ts (.success text pj)).body "status"
        = none := by
  have h1 := mainChat_success d key [] text pj hm hkey hh
  have h2 := routesChat_success d key now ts [] [] text pj hm hh rfl
  exact ⟨by rw [h1]; rfl, by rw [h2]; rfl, by rw [h1]; rfl, by rw [h2]; rfl⟩

/-- C6 witness: the amended theorem at the spec's end-to-end example. -/
theorem chat_success_no_history_witness :
    (truthy (dictGet dAllFields "message" (.str "")) = true
      ∧ dictGet dAllFields "history" (.arr []) = .arr []
      ∧ keyConfigured (some "k") = true)
    ∧ (Main.chat (some dAllFields) (some "k") (.success "Hi there" none)
          = ⟨200, .obj [("response", .str "Hi there"), ("status", .str "success")], 1,
              [ mkMessage (.str "system") (.str Main.chatSystemContent)
              , mkMessage (.str "user") (dictGet dAllFields "message" (.str ""))]⟩
      ∧ Routes.chat (some dAllFields) (some "k") "N" "T" (.success "Hi there" none)
          = ⟨200, .obj [("response", .str "Hi there"), ("timestamp", .str "T")], 1,
              [ mkMessage (.str "system") (.str (Routes.SYSTEM_PROMPT "N"))
              , mkMessage (.str "user") (dictGet dAllFields "message" (.str ""))]⟩
      ∧ (Main.chat (some dAllFields) (some "k") (.success "Hi there" none)).sent.length = 2
      ∧ jlookup (Routes.chat (some dAllFields) (some "k") "N" "T"
            (.success "Hi there" none)).body "status" = none) :=
  ⟨⟨rfl, rfl, rfl⟩,
   chat_success_no_history dAllFields (some "k") "Hi there" none "N" "T" rfl rfl rfl⟩

/-- C7 counterexample: an upstream authentication failure is not mapped to
401 by every completion-performing endpoint — the main organize-task
endpoint and the routes chat endpoint both return 500 on it. -/
theorem auth_401_not_universal :
    (Main.organize_task (some [("task", .str "t")]) (some "k")
        (.authError "bad key")).status = 500
    ∧ (Routes.chat (some [("message", .str "Hello")]) (some "k") "N" "T"
        (.authError "bad key")).status = 500 :=
  ⟨rfl, rfl⟩

/-- C7 (amended): an upstream authentication failure maps to HTTP 401 (with
an `error` field) only in the main chat endpoint; the other
completion-performing endpoints — main organize-task and schedule-meeting,
routes chat and schedule-meeting — catch it generically and return 500,
also with an `error` field present. -/
theorem auth_failure_mapping
    (d : List (String × Json)) (key : Option String) (m : String)
    (now ts : String)
    (hm : truthy (dictGet d "message" (.str "")) = true)
    (ht : truthy (dictGet d "task" (.str "")) = true)
    (hdet : truthy (dictGet d "details" (.str "")) = true)
    (hh : dictGet d "history" (.arr []) = .arr [])
    (hkey : keyConfigured key = true) :
    (Main.chat (some d) key (.authError m)).status = 401
    ∧ jlookup (Main.chat (some d) key (.authError m)).body "error"
        = some (.str "Invalid OpenAI API key")
    ∧ (Main.organize_task (some d) key (.authError m)).status = 500
    ∧ jlookup (Main.organize_task (some d) key (.authError m)).body "error"
        = some (.str ("Internal server error: " ++ m))
    ∧ (Main.schedule_meeting (some d) key (.authError m)).status = 500
    ∧ jlookup (Main.schedule_meeting (some d) key (.authError m)).body "error"
        = some (.str ("Internal server error: " ++ m))
    ∧ (Routes.chat (some d) key now ts (.authError m)).status = 500
    ∧ jlookup (Routes.chat (some d) key now ts (.authError m)).body "error"
        = some (.str "Failed to process message")
    ∧ (Routes.schedule_meeting (some d) key now ts (.authError m)).status = 500
    ∧ jlookup (Routes.schedule_meeting (some d) key now ts (.authError m)).body "error"
        = some (.str "Failed to organize meeting") := by
  have h1 := mainChat_auth d key [] m hm hkey hh
  have h2 := mainOrganize_auth d key m ht hkey
  have h3 := mainSchedule_auth d key m hdet hkey
  have h4 := routesChat_auth d key now ts [] [] m hm hh rfl
  have h5 := routesSchedule_auth d key now ts m hdet
  exact ⟨by rw [h1], by rw [h1]; rfl, h2.1, by rw [h2.2]; rfl, h3.1, by rw [h3.2]; rfl,
         by rw [h4], by rw [h4]; rfl, by rw [h5], by rw [h5]; rfl⟩

/-- C7 witness: the amended theorem at a concrete request. -/
theorem auth_failure_mapping_witness :
    (truthy (dictGet dAllFields "message" (.str "")) = true
      ∧ truthy (dictGet dAllFields "task" (.str "")) = true
      ∧ truthy (dictGet dAllFields "details" (.str "")) = true
      ∧ dictGet dAllFields "history" (.arr []) = .arr []
      ∧ keyConfigured (some "k") = true)
    ∧ ((Main.chat (some dAllFields) (some "k") (.authError "bad")).status = 401
      ∧ jlookup (Main.chat (some dAllFields) (some "k") (.authError "bad")).body "error"
          = some (.str "Invalid OpenAI API key")
      ∧ (Main.organize_task (some dAllFields) (some "k") (.authError "bad")).status = 500
      ∧ jlookup (Main.organize_task (some dAllFields) (some "k") (.authError "bad")).body "error"
          = some (.str ("Internal server error: " ++ "bad"))
      ∧ (Main.schedule_meeting (some dAllFields) (some "k") (.authError "bad")).status = 500
      ∧ jlookup (Main.schedule_meeting (some dAllFields) (some "k") (.authError "bad")).body "error"
          = some (.str ("Internal server error: " ++ "bad"))
      ∧ (Routes.chat (some dAllFields) (some "k") "N" "T" (.authError "bad")).status = 500
      ∧ jlookup (Routes.chat (some dAllFields) (some "k") "N" "T" (.authError "bad")).body "error"
          = some (.str "Failed to process message")
      ∧ (Routes.schedule_meeting (some dAllFields) (some "k") "N" "T" (.authError "bad")).status = 500
      ∧ jlookup (Routes.schedule_meeting (some dAllFields) (some "k") "N" "T"
            (.authError "bad")).body "error"
          = some (.str "Failed to organize meeting")) :=
  ⟨⟨rfl, rfl, rfl, rfl, rfl⟩,
   auth_failure_mapping dAllFields (some "k") "bad" "N" "T" rfl rfl rfl rfl rfl⟩

/-- C8 counterexample: the main chat endpoint forwards a role-less history
entry verbatim — the forwarded entry carries no `role` key at all instead of
the claimed default `"user"`. -/
theorem history_defaults_not_universal :
    (Main.chat (some [("message", .str "hi"),
        ("history", .arr [.obj [("content", .str "earlier")]])]) (some "k")
        (.success "ok" none)).sent
      = [ mkMessage (.str "system") (.str Main.chatSystemContent)
        , .obj [("content", .str "earlier")]
        , mkMessage (.str "user") (.str "hi")]
    ∧ jlookup (.obj [("content", .str "earlier")]) "role" = none :=
  ⟨rfl, rfl⟩

/-- C8 (amended): the routes chat endpoint defaults each history entry's
missing `role` to "user" and missing `content` to the empty string when
forwarding; the main chat endpoint performs no defaulting — it forwards
history entries verbatim. -/
theorem history_defaulting
    (d : List (String × Json)) (key : Option String) (out : CompletionOutcome)
    (now ts : String) (hist turns : List Json) (fields : List (String × Json))
    (hm : truthy (dictGet d "message" (.str "")) = true)
    (hh : dictGet d "history" (.arr []) = .arr hist)
    (hkey : keyConfigured key = true)
    (hturns : Routes.mapTurns (lastSlice 10 hist) = some turns) :
    Routes.historyTurn (.obj fields)
        = some (mkMessage (dictGet fields "role" (.str "user"))
                          (dictGet fields "content" (.str "")))
    ∧ (Routes.chat (some d) key now ts out).sent
        = mkMessage (.str "system") (.str (Routes.SYSTEM_PROMPT now))
            :: turns ++ [mkMessage (.str "user") (dictGet d "message" (.str ""))]
    ∧ (Main.chat (some d) key out).sent
        = mkMessage (.str "system") (.str Main.chatSystemContent)
            :: lastSlice 10 hist
            ++ [mkMessage (.str "user") (dictGet d "message" (.str ""))] :=
  ⟨rfl, (routesChat_run d key now ts hist turns out hm hh hturns).1,
   (mainChat_run d key hist out hm hkey hh).1⟩

/-- C8 witness: the amended theorem at a history with a role-less and a
content-less entry. -/
theorem history_defaulting_witness :
    (truthy (dictGet dChatDefaults "message" (.str "")) = true
      ∧ dictGet dChatDefaults "history" (.arr []) = .arr histDefaults
      ∧ keyConfigured (some "k") = true
      ∧ Routes.mapTurns (lastSlice 10 histDefaults) = some turnsDefaults)
    ∧ (Routes.historyTurn (.obj [("content", .str "earlier")])
          = some (mkMessage (dictGet [("content", .str "earlier")] "role" (.str "user"))
                            (dictGet [("content", .str "earlier")] "content" (.str "")))
      ∧ (Routes.chat (some dChatDefaults) (some "k") "N" "T" (.success "ok" none)).sent
          = mkMessage (.str "system") (.str (Routes.SYSTEM_PROMPT "N"))
              :: turnsDefaults
              ++ [mkMessage (.str "user") (dictGet dChatDefaults "message" (.str ""))]
      ∧ (Main.chat (some dChatDefaults) (some "k") (.success "ok" none)).sent
          = mkMessage (.str "system") (.str Main.chatSystemContent)
              :: lastSlice 10 histDefaults
              ++ [mkMessage (.str "user") (dictGet dChatDefaults "message" (.str ""))]) :=
  ⟨⟨rfl, rfl, rfl, rfl⟩,
   history_defaulting dChatDefaults (some "k") (.success "ok" none) "N" "T"
     histDefaults turnsDefaults [("content", .str "earlier")] rfl rfl rfl rfl⟩

/-- C9: model text that parses as a non-object JSON value (array, string,
number, ...) is returned directly as the 200 response body by the main
organize-task and schedule-meeting endpoints — so a 200 response is not
guaranteed to be a JSON object carrying the documented fields. -/
theorem non_object_parse_returned
    (d : List (String × Json)) (key : Option String) (text : String) (v : Json)
    (ht : truthy (dictGet d "task" (.str "")) = true)
    (hdet : truthy (dictGet d "details" (.str "")) = true)
    (hkey : keyConfigured key = true)
    (hv : v.isObj = false) :
    (Main.organize_task (some d) key (.success text (some v))).status = 200
    ∧ (Main.organize_task (some d) key (.success text (some v))).body = v
    ∧ (Main.schedule_meeting (some d) key (.success text (some v))).status = 200
    ∧ (Main.schedule_meeting (some d) key (.success text (some v))).body = v
    ∧ (Main.organize_task (some d) key (.success text (some v))).body.isObj = false := by
  have h1 := mainOrganize_success d key text (some v) ht hkey
  have h2 := mainSchedule_success d key text (some v) hdet hkey
  exact ⟨by rw [h1], by rw [h1]; rfl, by rw [h2], by rw [h2]; rfl,
         by rw [h1]; exact hv⟩

/-- C9 witness: the theorem at a parsed JSON array. -/
theorem non_object_parse_returned_witness :
    (truthy (dictGet dAllFields "task" (.str "")) = true
      ∧ truthy (dictGet dAllFields "details" (.str "")) = true
      ∧ keyConfigured (some "k") = true
      ∧ (Json.arr [.num 1, .num 2]).isObj = false)
    ∧ ((Main.organize_task (some dAllFields) (some "k")
          (.success "[1, 2]" (some (.arr [.num 1, .num 2])))).status = 200
      ∧ (Main.organize_task (some dAllFields) (some "k")
          (.success "[1, 2]" (some (.arr [.num 1, .num 2])))).body = .arr [.num 1, .num 2]
      ∧ (Main.schedule_meeting (some dAllFields) (some "k")
          (.success "[1, 2]" (some (.arr [.num 1, .num 2])))).status = 200
      ∧ (Main.schedule_meeting (some dAllFields) (some "k")
          (.success "[1, 2]" (some (.arr [.num 1, .num 2])))).body = .arr [.num 1, .num 2]
      ∧ (Main.organize_task (some dAllFields) (some "k")
          (.success "[1, 2]" (some (.arr [.num 1, .num 2])))).body.isObj = false) :=
  ⟨⟨rfl, rfl, rfl, rfl⟩,
   non_object_parse_returned dAllFields (some "k") "[1, 2]" (.arr [.num 1, .num 2])
     rfl rfl rfl rfl⟩

/-- C10: required-field validation is Python truthiness — a falsy value of
any type in the required field (null, false, 0, empty array, empty object,
empty string) is rejected with 400 and zero completion calls exactly like an
absent field, while any truthy value (such as a nonzero number) passes
validation and is forwarded: the chat request sends it verbatim as the final
user turn's content. -/
theorem truthiness_validation
    (d : List (String × Json)) (key : Option String) (out : CompletionOutcome) :
    (truthy (dictGet d "message" (.str "")) = false →
        (Main.chat (some d) key out).status = 400
      ∧ (Main.chat (some d) key out).calls = 0)
    ∧ (truthy (dictGet d "task" (.str "")) = false →
        (Main.organize_task (some d) key out).status = 400
      ∧ (Main.organize_task (some d) key out).calls = 0)
    ∧ (truthy (dictGet d "message" (.str "")) = true →
       keyConfigured key = true →
       dictGet d "history" (.arr []) = .arr [] →
        (Main.chat (some d) key out).calls = 1
      ∧ (Main.chat (some d) key out).sent.getLast?
          = some (mkMessage (.str "user") (dictGet d "message" (.str ""))))
    ∧ (truthy (dictGet d "task" (.str "")) = true → keyConfigured key = true →
        (Main.organize_task (some d) key out).calls = 1)
    ∧ truthy .null = false ∧ truthy (.bool false) = false ∧ truthy (.num 0) = false
    ∧ truthy (.arr []) = false ∧ truthy (.obj []) = false ∧ truthy (.str "") = false
    ∧ (∀ n : Int, n ≠ 0 → truthy (.num n) = true) := by
  refine ⟨fun h => ?_, fun h => ?_, fun h hk hh => ?_, fun h hk => ?_,
          by decide, by decide, by decide, by decide, by decide, by decide,
          fun n hn => ?_⟩
  · cases d with
    | nil => simp [Main.chat]
    | cons p t => simp [Main.chat, h]
  · cases d with
    | nil => simp [Main.organize_task]
    | cons p t => simp [Main.organize_task, h]
  · have hr := mainChat_run d key [] out h hk hh
    exact ⟨hr.2, by rw [hr.1]; rfl⟩
  · cases d with
    | nil => exact absurd h (by decide)
    | cons p t => cases out <;> simp [Main.organize_task, h, hk]
  · simp only [truthy, bne_iff_ne, ne_eq]
    exact hn

/-- C10 witness: the theorem at a falsy non-string message (0) and at a
truthy non-string message (5). -/
theorem truthiness_validation_witness :
    (truthy (dictGet [("message", Json.num 0)] "message" (.str "")) = false
      ∧ (Main.chat (some [("message", Json.num 0)]) (some "k")
          (.success "x" none)).status = 400
      ∧ (Main.chat (some [("message", Json.num 0)]) (some "k")
          (.success "x" none)).calls = 0)
    ∧ (truthy (dictGet [("message", Json.num 5)] "message" (.str "")) = true
      ∧ (Main.chat (some [("message", Json.num 5)]) (some "k")
          (.success "x" none)).calls = 1
      ∧ (Main.chat (some [("message", Json.num 5)]) (some "k")
          (.success "x" none)).sent.getLast?
          = some (mkMessage (.str "user")
                    (dictGet [("message", Json.num 5)] "message" (.str "")))) :=
  ⟨⟨rfl, (truthiness_validation [("message", .num 0)] (some "k") (.success "x" none)).1 rfl⟩,
   ⟨rfl, (truthiness_validation [("message", .num 5)] (some "k")
            (.success "x" none)).2.2.1 rfl rfl rfl⟩⟩

end AiAgent
